import Mathlib

/-!
Verification of the wow-patcher pattern-matching and section-aware patch
engine, shallowly embedded from the Rust sources.

Modelling conventions:
* a byte buffer (`Vec<u8>` / `&[u8]`) is a `List Nat`, each element a byte
  value (`< 256` stated as a hypothesis where it matters);
* a `Pattern` (`Vec<i16>`) is a `List Int`; every constant pattern of the
  program fits the `i16` range, and no arithmetic is performed on pattern
  elements, so `Int` is an exact model;
* in-place mutation (`patch(&mut data, ..)`) becomes explicit state passing:
  the function returns the result together with the final buffer, and every
  early-error return hands back the untouched buffer, exactly as the Rust
  code does;
* fallible functions return `Except`.
-/

namespace WowPatcher

/-- Error categories, from src/errors/mod.rs (`ErrorCategory`). -/
inductive ErrorCategory where
  | FileOperationError
  | ValidationError
  | PatchingError
  | PlatformError
deriving DecidableEq, Repr

/-- `WowPatcherError` from src/errors/mod.rs, reduced to the fields the
engine's behaviour depends on (the `cause` chain and `context` map carry no
control-flow information). -/
structure WowPatcherError where
  category : ErrorCategory
  message : String
deriving DecidableEq, Repr

/-- `pub type Pattern = Vec<i16>;` from src/binary/mod.rs. -/
abbrev Pattern := List Int

/-- `string_to_pattern` from src/binary/mod.rs: maps each byte of the string
to an `i16`.  All pattern strings of the program are ASCII, so the UTF-8
bytes coincide with the character codes. -/
def string_to_pattern (s : String) : Pattern :=
  s.toList.map (fun c => (c.toNat : Int))

/-- `PatternExt::empty` from src/binary/mod.rs: a zero buffer of the
pattern's length. -/
def patternEmpty (p : Pattern) : List Nat :=
  List.replicate p.length 0

/-- Inner loop of `find_pattern` (src/binary/mod.rs lines 70-77): the
pattern matches at offset `i` when every position is the wildcard `-1` or
equals the corresponding data byte. -/
def matchAt (data : List Nat) (p : Pattern) (i : Nat) : Bool :=
  (List.range p.length).all fun j =>
    p.getD j 0 == -1 || ((data.getD (i + j) 0 : Nat) : Int) == p.getD j 0

/-- The outer loop of `find_pattern`: try offsets `i, i+1, ...` while fuel
remains, returning the first offset where the pattern matches. -/
def scanFrom (data : List Nat) (p : Pattern) (i : Nat) : Nat → Option Nat
  | 0 => none
  | fuel + 1 => if matchAt data p i then some i else scanFrom data p (i + 1) fuel

/-- `find_pattern` from src/binary/mod.rs lines 65-80: `None` on an empty
pattern or a pattern longer than the data, otherwise scan the offsets
`0 ..= data.len() - pattern.len()` for the first match. -/
def find_pattern (data : List Nat) (p : Pattern) : Option Nat :=
  if p.isEmpty || data.length < p.length then none
  else scanFrom data p 0 (data.length - p.length + 1)

/-- Wildcard-match semantics at offset `k`, as the spec states it: every
position of the pattern is `-1` or equals the buffer byte at `k + i`. -/
def WildcardMatchAt (data : List Nat) (p : Pattern) (k : Nat) : Prop :=
  ∀ j < p.length, p.getD j 0 = -1 ∨ ((data.getD (k + j) 0 : Nat) : Int) = p.getD j 0

instance (data : List Nat) (p : Pattern) (k : Nat) :
    Decidable (WildcardMatchAt data p k) := by
  unfold WildcardMatchAt; infer_instance

/-- `data[pos..pos+repl.len()].copy_from_slice(repl)` as a pure function. -/
def copySlice (data : List Nat) (pos : Nat) (repl : List Nat) : List Nat :=
  data.take pos ++ repl ++ data.drop (pos + repl.length)

/-- `patch` from src/binary/mod.rs lines 35-63, with the in-place mutation
made explicit: the second component is the final state of the buffer, and
every error return leaves it untouched, exactly as in the source. -/
def patch (data : List Nat) (findp : Pattern) (replace : List Nat) :
    Except WowPatcherError Unit × List Nat :=
  if data.isEmpty then
    (.error ⟨.PatchingError, "cannot patch empty data"⟩, data)
  else if data.length < findp.length then
    (.error ⟨.PatchingError, "pattern longer than data"⟩, data)
  else
    match find_pattern data findp with
    | some pos =>
      let replaceLen := min replace.length findp.length
      (.ok (), copySlice data pos (replace.take replaceLen))
    | none => (.error ⟨.PatchingError, "pattern not found in data"⟩, data)

/-- `SectionInfo` from src/binary/section.rs. -/
structure SectionInfo where
  name : String
  virtual_address : Nat
  virtual_size : Nat
  file_offset : Nat
  is_patchable : Bool
deriving DecidableEq, Repr

/-- A PE section-table entry as the classifier reads it (goblin's
`SectionTable`): the raw 8-byte name (decoded by `String::from_utf8_lossy`)
and the raw-data/virtual ranges. -/
structure PESection where
  nameRaw : String
  pointer_to_raw_data : Nat
  size_of_raw_data : Nat
  virtual_address : Nat
  virtual_size : Nat
deriving DecidableEq, Repr

/-- `.trim_end_matches('\0')` applied to the decoded section name. -/
def trimTrailingNuls (s : String) : String :=
  String.mk ((s.data.reverse.dropWhile (fun c => c == Char.ofNat 0)).reverse)

/-- `check_pe_offset` from src/binary/section.rs lines 26-49: return info
for the first section whose raw-data file range contains the offset;
`is_patchable` exactly when the trimmed name is `.rdata` or `.data`. -/
def check_pe_offset : List PESection → Nat → Option SectionInfo
  | [], _ => none
  | s :: rest, offset =>
    let name := trimTrailingNuls s.nameRaw
    if s.pointer_to_raw_data ≤ offset ∧
        offset < s.pointer_to_raw_data + s.size_of_raw_data then
      some { name := name
             virtual_address := s.virtual_address
             virtual_size := s.virtual_size
             file_offset := s.pointer_to_raw_data
             is_patchable := name == ".rdata" || name == ".data" }
    else check_pe_offset rest offset

/-- A Mach-O section as the classifier reads it. -/
structure MachOSection where
  sectname : String
  addr : Nat
  size : Nat
  offset : Nat
deriving DecidableEq, Repr

/-- A Mach-O segment with its sections. -/
structure MachOSegment where
  segname : String
  vmaddr : Nat
  vmsize : Nat
  fileoff : Nat
  filesize : Nat
  sections : List MachOSection
deriving DecidableEq, Repr

/-- Inner loop of `check_macho_offset`: find the first section of the
containing segment whose file range holds the offset. -/
def find_macho_section (segname : String) : List MachOSection → Nat → Option SectionInfo
  | [], _ => none
  | sect :: rest, offset =>
    if sect.offset ≤ offset ∧ offset < sect.offset + sect.size then
      some { name := segname ++ "." ++ sect.sectname
             virtual_address := sect.addr
             virtual_size := sect.size
             file_offset := sect.offset
             is_patchable := segname == "__DATA" || segname == "__DATA_CONST" ||
               (segname == "__TEXT" && sect.sectname == "__const") }
    else find_macho_section segname rest offset

/-- `goblin::mach::Mach`: a thin binary with its segments, or a fat
(multi-architecture) container. -/
inductive MachObject where
  | Binary (segments : List MachOSegment)
  | Fat
deriving DecidableEq, Repr

/-- `check_macho_offset` from src/binary/section.rs lines 52-113: find the
containing segment, then its containing section (falling back to
segment-level info); fat binaries are unsupported and yield `none`. -/
def check_macho_segments : List MachOSegment → Nat → Option SectionInfo
  | [], _ => none
  | seg :: rest, offset =>
    if seg.fileoff ≤ offset ∧ offset < seg.fileoff + seg.filesize then
      match find_macho_section seg.segname seg.sections offset with
      | some info => some info
      | none =>
        some { name := seg.segname
               virtual_address := seg.vmaddr
               virtual_size := seg.vmsize
               file_offset := seg.fileoff
               is_patchable := seg.segname == "__DATA" || seg.segname == "__DATA_CONST" }
    else check_macho_segments rest offset

def check_macho_offset (mach : MachObject) (offset : Nat) : Option SectionInfo :=
  match mach with
  | .Binary segments => check_macho_segments segments offset
  | .Fat => none

/-- The result of `goblin::Object::parse` on the buffer, as a closed tagged
union: a PE section table, a Mach-O object, or any other (or unparseable)
format.  The parse itself is the external goblin collaborator; the
classifier's behaviour depends only on this result. -/
inductive ParsedObject where
  | PE (sections : List PESection)
  | Mach (m : MachObject)
  | Other
deriving DecidableEq, Repr

/-- `check_offset_section` from src/binary/section.rs lines 15-23, over the
parse result of the buffer. -/
def check_offset_section (obj : ParsedObject) (offset : Nat) : Option SectionInfo :=
  match obj with
  | .PE sections => check_pe_offset sections offset
  | .Mach mach => check_macho_offset mach offset
  | .Other => none

/-- Lowercase hexadecimal rendering of a number (`format!("{:x}", n)`). -/
def toHexString (n : Nat) : String :=
  String.mk (Nat.toDigits 16 n)

/-- The message pushed for an offset in a non-patchable section
(src/binary/section.rs lines 122-127; the Rust string continuation joins
the two lines with a single space). -/
def msgNonPatchable (patternName : String) (offset : Nat) (sectionName : String) : String :=
  "Pattern '" ++ patternName ++ "' found at offset 0x" ++ toHexString offset ++
    " in non-patchable section '" ++ sectionName ++
    "'. Binary patching only works reliably in .rdata or .data sections."

/-- The message pushed for an offset whose section cannot be determined
(src/binary/section.rs lines 129-132). -/
def msgUnknownSection (patternName : String) (offset : Nat) : String :=
  "Pattern '" ++ patternName ++ "' at offset 0x" ++ toHexString offset ++
    " - unable to determine section"

/-- Body of the `for (offset, pattern_name) in offsets` loop of
`validate_patch_offsets`: push a message for a non-patchable or
undetermined section, keep the accumulated messages otherwise. -/
def validateStep (obj : ParsedObject) (errs : List String) (q : Nat × String) :
    List String :=
  match check_offset_section obj q.1 with
  | some sec =>
    if !sec.is_patchable then errs ++ [msgNonPatchable q.2 q.1 sec.name]
    else errs
  | none => errs ++ [msgUnknownSection q.2 q.1]

/-- `validate_patch_offsets` from src/binary/section.rs lines 116-141:
collect one message per offset whose classification is missing or not
patchable, and fail with the newline-joined combined message when any
message was collected. -/
def validate_patch_offsets (obj : ParsedObject) (offsets : List (Nat × String)) :
    Except String Unit :=
  let errors := offsets.foldl (validateStep obj) []
  if errors.isEmpty then .ok () else .error (String.intercalate "\n" errors)

/-- The message `validate_patch_offsets` produces for one offset, if any:
none when the offset classifies to a patchable section. -/
def offsetFailureMsg (obj : ParsedObject) (q : Nat × String) : Option String :=
  match check_offset_section obj q.1 with
  | some sec =>
    if !sec.is_patchable then some (msgNonPatchable q.2 q.1 sec.name) else none
  | none => some (msgUnknownSection q.2 q.1)

/-- `RSA_MODULUS` from src/trinity/mod.rs: the TrinityCore 256-byte RSA
modulus. -/
def RSA_MODULUS : List Nat := [
  0x5F, 0xD6, 0x80, 0x0B, 0xA7, 0xFF, 0x01, 0x40, 0xC7, 0xBC, 0x8E, 0xF5, 0x6B, 0x27, 0xB0, 0xBF,
  0xF0, 0x1D, 0x1B, 0xFE, 0xDD, 0x0B, 0x1F, 0x3D, 0xB6, 0x6F, 0x1A, 0x48, 0x0D, 0xFB, 0x51, 0x08,
  0x65, 0x58, 0x4F, 0xDB, 0x5C, 0x6E, 0xCF, 0x64, 0xCB, 0xC1, 0x6B, 0x2E, 0xB8, 0x0F, 0x5D, 0x08,
  0x5D, 0x89, 0x06, 0xA9, 0x77, 0x8B, 0x9E, 0xAA, 0x04, 0xB0, 0x83, 0x10, 0xE2, 0x15, 0x4D, 0x08,
  0x77, 0xD4, 0x7A, 0x0E, 0x5A, 0xB0, 0xBB, 0x00, 0x61, 0xD7, 0xA6, 0x75, 0xDF, 0x06, 0x64, 0x88,
  0xBB, 0xB9, 0xCA, 0xB0, 0x18, 0x8B, 0x54, 0x13, 0xE2, 0xCB, 0x33, 0xDF, 0x17, 0xD8, 0xDA, 0xA9,
  0xA5, 0x60, 0xA3, 0x1F, 0x4E, 0x27, 0x05, 0x98, 0x6F, 0xAA, 0xEE, 0x14, 0x3B, 0xF3, 0x97, 0xA8,
  0x12, 0x02, 0x94, 0x0D, 0x84, 0xDC, 0x0E, 0xF1, 0x76, 0x23, 0x95, 0x36, 0x13, 0xF9, 0xA9, 0xC5,
  0x48, 0xDB, 0xDA, 0x86, 0xBE, 0x29, 0x22, 0x54, 0x44, 0x9D, 0x9F, 0x80, 0x7B, 0x07, 0x80, 0x30,
  0xEA, 0xD2, 0x83, 0xCC, 0xCE, 0x37, 0xD1, 0xD1, 0xCF, 0x85, 0xBE, 0x91, 0x25, 0xCE, 0xC0, 0xCC,
  0x55, 0xC8, 0xC0, 0xFB, 0x38, 0xC5, 0x49, 0x03, 0x6A, 0x02, 0xA9, 0x9F, 0x9F, 0x86, 0xFB, 0xC7,
  0xCB, 0xC6, 0xA5, 0x82, 0xA2, 0x30, 0xC2, 0xAC, 0xE6, 0x98, 0xDA, 0x83, 0x64, 0x43, 0x7F, 0x0D,
  0x13, 0x18, 0xEB, 0x90, 0x53, 0x5B, 0x37, 0x6B, 0xE6, 0x0D, 0x80, 0x1E, 0xEF, 0xED, 0xC7, 0xB8,
  0x68, 0x9B, 0x4C, 0x09, 0x7B, 0x60, 0xB2, 0x57, 0xD8, 0x59, 0x8D, 0x7F, 0xEA, 0xCD, 0xEB, 0xC4,
  0x60, 0x9F, 0x45, 0x7A, 0xA9, 0x26, 0x8A, 0x2F, 0x85, 0x0C, 0xF2, 0x19, 0xC6, 0x53, 0x92, 0xF7,
  0xF0, 0xB8, 0x32, 0xCB, 0x5B, 0x66, 0xCE, 0x51, 0x54, 0xB4, 0xC3, 0xD3, 0xD4, 0xDC, 0xB3, 0xEE
]

/-- `CRYPTO_ED25519_PUBLIC_KEY` from src/trinity/mod.rs: the TrinityCore
32-byte Ed25519 public key. -/
def CRYPTO_ED25519_PUBLIC_KEY : List Nat := [
  0x02, 0x59, 0x6F, 0x0D, 0x0C, 0x06, 0x1A, 0x8B, 0x30, 0x74, 0x59, 0x88, 0xFD, 0x72, 0xC5, 0x9E,
  0x29, 0xEC, 0x36, 0x7F, 0xB0, 0xF3, 0x41, 0xF2, 0x8E, 0x0F, 0x08, 0xD0, 0x37, 0xBA, 0xFC, 0x69
]

/-- `KeyConfig` from src/keys/mod.rs. -/
structure KeyConfig where
  rsa_modulus : List Nat
  ed25519_public_key : List Nat
deriving DecidableEq, Repr

/-- `KeyConfig::trinity_core` from src/keys/mod.rs (also `Default`). -/
def KeyConfig.trinity_core : KeyConfig :=
  ⟨RSA_MODULUS, CRYPTO_ED25519_PUBLIC_KEY⟩

/-- `KeyConfig::validate` from src/keys/mod.rs lines 170-228: exact lengths
(256 and 32 bytes), not all-zero, not all one repeated byte, for both key
slots, in the source's check order. -/
def KeyConfig.validate (c : KeyConfig) : Except WowPatcherError Unit :=
  if c.rsa_modulus.length ≠ 256 then
    .error ⟨.ValidationError,
      "RSA modulus must be exactly 256 bytes, got " ++ toString c.rsa_modulus.length⟩
  else if c.rsa_modulus.all (fun b => b == 0) then
    .error ⟨.ValidationError, "RSA modulus cannot be all zeros"⟩
  else if c.rsa_modulus.all (fun b => b == c.rsa_modulus.getD 0 0) then
    .error ⟨.ValidationError, "RSA modulus cannot contain all identical bytes"⟩
  else if c.ed25519_public_key.length ≠ 32 then
    .error ⟨.ValidationError,
      "Ed25519 public key must be exactly 32 bytes, got " ++
        toString c.ed25519_public_key.length⟩
  else if c.ed25519_public_key.all (fun b => b == 0) then
    .error ⟨.ValidationError, "Ed25519 public key cannot be all zeros"⟩
  else if c.ed25519_public_key.all (fun b => b == c.ed25519_public_key.getD 0 0) then
    .error ⟨.ValidationError, "Ed25519 public key cannot contain all identical bytes"⟩
  else
    .ok ()

/-- `KeyConfig::custom` from src/keys/mod.rs lines 31-41. -/
def KeyConfig.custom (rsa_modulus ed25519_public_key : List Nat) :
    Except WowPatcherError KeyConfig :=
  match (⟨rsa_modulus, ed25519_public_key⟩ : KeyConfig).validate with
  | .ok () => .ok ⟨rsa_modulus, ed25519_public_key⟩
  | .error e => .error e

/-- `KeyConfig::with_rsa_from_file` from src/keys/mod.rs lines 44-66, with
the result of `fs::read` passed as the byte list (the read itself is an
external collaborator). -/
def KeyConfig.with_rsa_from_file (c : KeyConfig) (rsa_data : List Nat) :
    Except WowPatcherError KeyConfig :=
  if rsa_data.length ≠ 256 then
    .error ⟨.ValidationError,
      "RSA modulus must be exactly 256 bytes, got " ++ toString rsa_data.length ++ " bytes"⟩
  else
    match ({ c with rsa_modulus := rsa_data } : KeyConfig).validate with
    | .ok () => .ok { c with rsa_modulus := rsa_data }
    | .error e => .error e

/-- `KeyConfig::with_ed25519_from_file` from src/keys/mod.rs lines 69-97,
with the file bytes passed directly. -/
def KeyConfig.with_ed25519_from_file (c : KeyConfig) (ed25519_data : List Nat) :
    Except WowPatcherError KeyConfig :=
  if ed25519_data.length ≠ 32 then
    .error ⟨.ValidationError,
      "Ed25519 public key must be exactly 32 bytes, got " ++
        toString ed25519_data.length ++ " bytes"⟩
  else
    match ({ c with ed25519_public_key := ed25519_data } : KeyConfig).validate with
    | .ok () => .ok { c with ed25519_public_key := ed25519_data }
    | .error e => .error e

/-- `char::is_ascii_hexdigit`. -/
def isAsciiHexDigit (c : Char) : Bool :=
  c.isDigit || (decide (97 ≤ c.toNat) && decide (c.toNat ≤ 102)) ||
    (decide (65 ≤ c.toNat) && decide (c.toNat ≤ 70))

/-- Value of one hex digit character. -/
def hexDigitVal (c : Char) : Nat :=
  if c.isDigit then c.toNat - 48
  else if decide (97 ≤ c.toNat) && decide (c.toNat ≤ 102) then c.toNat - 87
  else if decide (65 ≤ c.toNat) && decide (c.toNat ≤ 70) then c.toNat - 55
  else 0

/-- `hex::decode` on a character list: fails on odd length or a non-hex
digit, otherwise pairs the digits into bytes. -/
def hexDecode : List Char → Option (List Nat)
  | [] => some []
  | [_] => none
  | c1 :: c2 :: rest =>
    if isAsciiHexDigit c1 && isAsciiHexDigit c2 then
      (hexDecode rest).map (fun bs => (16 * hexDigitVal c1 + hexDigitVal c2) :: bs)
    else none

/-- `KeyConfig::with_rsa_from_hex` from src/keys/mod.rs lines 100-127:
strip non-hex characters, demand exactly 512 hex digits, decode, then
validate the resulting configuration. -/
def KeyConfig.with_rsa_from_hex (c : KeyConfig) (hexText : String) :
    Except WowPatcherError KeyConfig :=
  if (hexText.toList.filter isAsciiHexDigit).length ≠ 512 then
    .error ⟨.ValidationError,
      "RSA modulus hex string must be exactly 512 hex characters (256 bytes), got " ++
        toString (hexText.toList.filter isAsciiHexDigit).length ++ " characters"⟩
  else
    match hexDecode (hexText.toList.filter isAsciiHexDigit) with
    | none => .error ⟨.ValidationError, "Invalid hex format for RSA modulus"⟩
    | some rsa_data =>
      match ({ c with rsa_modulus := rsa_data } : KeyConfig).validate with
      | .ok () => .ok { c with rsa_modulus := rsa_data }
      | .error e => .error e

/-- `KeyConfig::with_ed25519_from_hex` from src/keys/mod.rs lines 130-157. -/
def KeyConfig.with_ed25519_from_hex (c : KeyConfig) (hexText : String) :
    Except WowPatcherError KeyConfig :=
  if (hexText.toList.filter isAsciiHexDigit).length ≠ 64 then
    .error ⟨.ValidationError,
      "Ed25519 public key hex string must be exactly 64 hex characters (32 bytes), got " ++
        toString (hexText.toList.filter isAsciiHexDigit).length ++ " characters"⟩
  else
    match hexDecode (hexText.toList.filter isAsciiHexDigit) with
    | none => .error ⟨.ValidationError, "Invalid hex format for Ed25519 public key"⟩
    | some ed25519_data =>
      match ({ c with ed25519_public_key := ed25519_data } : KeyConfig).validate with
      | .ok () => .ok { c with ed25519_public_key := ed25519_data }
      | .error e => .error e

/-- The key-material invariant of C8: exact lengths, and neither buffer a
single repeated byte value (which subsumes the all-zero case). -/
def ValidKeyMaterial (c : KeyConfig) : Prop :=
  c.rsa_modulus.length = 256 ∧ c.ed25519_public_key.length = 32 ∧
    (¬ ∃ v, ∀ b ∈ c.rsa_modulus, b = v) ∧
    (¬ ∃ v, ∀ b ∈ c.ed25519_public_key, b = v)

/-- `portal_pattern` from src/patterns/mod.rs. -/
def portal_pattern : Pattern := string_to_pattern ".actual.battle.net"

/-- `connect_to_modulus_pattern` from src/patterns/mod.rs. -/
def connect_to_modulus_pattern : Pattern := [0x91, 0xD5, 0x9B, 0xB7, 0xD4, 0xE1, 0x83, 0xA5]

/-- `signature_modulus_pattern` from src/patterns/mod.rs. -/
def signature_modulus_pattern : Pattern := [0x35, 0xFF, 0x17, 0xE7, 0x33, 0xC4, 0xD3, 0xD4]

/-- `crypto_rsa_modulus_pattern` from src/patterns/mod.rs. -/
def crypto_rsa_modulus_pattern : Pattern := [0x71, 0xFD, 0xFA, 0x60, 0x14, 0x0D, 0xF2, 0x05]

/-- `crypto_ed_public_key_pattern` from src/patterns/mod.rs. -/
def crypto_ed_public_key_pattern : Pattern := [0x15, 0xD6, 0x18, 0xBD, 0x7D, 0xB5, 0x77, 0xBD]

/-- `version_url_pattern` from src/patterns/mod.rs. -/
def version_url_pattern : Pattern :=
  string_to_pattern "http://%s.patch.battle.net:1119/%s/versions"

/-- `version_url_v2_pattern` from src/patterns/mod.rs. -/
def version_url_v2_pattern : Pattern :=
  string_to_pattern "https://%s.version.battle.net/v2/products/%s/versions"

/-- `version_url_v3_pattern` from src/patterns/mod.rs. -/
def version_url_v3_pattern : Pattern :=
  string_to_pattern "https://%s.version.battle.net/v2/products/%s/%s"

/-- `cdns_url_pattern` from src/patterns/mod.rs. -/
def cdns_url_pattern : Pattern :=
  string_to_pattern "http://%s.patch.battle.net:1119/%s/cdns"

/-- `get_version_url` from src/trinity/mod.rs. -/
def get_version_url (build : Option Nat) (region product : Option String) : String :=
  match build with
  | some b =>
    "http://ngdp.arctium.io/" ++ region.getD "%s" ++ "/" ++ product.getD "%s" ++
      "/" ++ toString b ++ "/versions"
  | none =>
    "http://ngdp.arctium.io/" ++ region.getD "%s" ++ "/" ++ product.getD "%s" ++
      "/latest/versions"

/-- `get_cdns_url` from src/trinity/mod.rs. -/
def get_cdns_url : String := "http://ngdp.arctium.io/customs/wow/cdns"

/-- Modelled from the spec: `get_unified_api_url` is imported by the patch
orchestrator (src/cmd/execute.rs) from the trinity module but its definition
is absent from the provided sources.  The spec and the orchestrator's
dry-run output describe it as the Arctium unified-API endpoint, containing
the build number when known.  Its exact text influences no verified
property: only pattern lengths and matches, never replacement text, decide
control flow. -/
def get_unified_api_url (build : Option Nat) : String :=
  match build with
  | some b => "http://ngdp.arctium.io/%s/%s/" ++ toString b ++ "/%s"
  | none => "http://ngdp.arctium.io/%s/%s/%s"

/-- `create_url_replacement` from src/trinity/mod.rs: truncate the URL
bytes to the original length, or zero-pad them on the right. -/
def create_url_replacement (url : String) (original_len : Nat) : List Nat :=
  if original_len < (url.toList.map Char.toNat).length then
    (url.toList.map Char.toNat).take original_len
  else
    (url.toList.map Char.toNat) ++
      List.replicate (original_len - (url.toList.map Char.toNat).length) 0

/-- The two inputs of `execute_patch` that come from client-type detection
and version extraction (src/platform, src/version): whether this client
variant uses the Ed25519 key, and the extracted build number. -/
structure ClientInfo where
  usesEd25519 : Bool
  buildNum : Option Nat
deriving DecidableEq, Repr

/-- Outcome of the orchestrator's core: the dry-run branch returns without
writing; the apply branch writes the final buffer and reports the applied
patch count. -/
inductive ExecOutcome where
  | dryRunPreview
  | wrote (output : List Nat) (patchCount : Nat)
deriving DecidableEq, Repr

/-- The offset-collection phase of `execute_patch` (src/cmd/execute.rs
lines 96-136): one `(offset, label)` per pattern found in the buffer, in
the source's order, the Ed25519 pattern only for client variants that use
it. -/
def collect_offsets (data : List Nat) (usesEd : Bool) : List (Nat × String) :=
  (match find_pattern data portal_pattern with
   | some offset => [(offset, "Portal (.actual.battle.net)")]
   | none => []) ++
  (match find_pattern data connect_to_modulus_pattern with
   | some offset => [(offset, "RSA Modulus (ConnectTo)")]
   | none => []) ++
  (match find_pattern data signature_modulus_pattern with
   | some offset => [(offset, "RSA Modulus (Signature)")]
   | none => []) ++
  (match find_pattern data crypto_rsa_modulus_pattern with
   | some offset => [(offset, "RSA Modulus (Crypto)")]
   | none => []) ++
  (if usesEd then
    match find_pattern data crypto_ed_public_key_pattern with
    | some offset => [(offset, "Ed25519 Public Key")]
    | none => []
   else []) ++
  (match find_pattern data version_url_pattern with
   | some offset => [(offset, "Version URL")]
   | none => []) ++
  (match find_pattern data version_url_v2_pattern with
   | some offset => [(offset, "Version URL v2")]
   | none => []) ++
  (match find_pattern data version_url_v3_pattern with
   | some offset => [(offset, "Version URL v3")]
   | none => []) ++
  (match find_pattern data cdns_url_pattern with
   | some offset => [(offset, "CDNs URL")]
   | none => [])

/-- One best-effort patch attempt of the apply phase: on success the buffer
is updated and the count incremented; on failure both are unchanged
(`patch` hands back the untouched buffer). -/
def try_patch (st : List Nat × Nat) (p : Pattern) (repl : List Nat) : List Nat × Nat :=
  match patch st.1 p repl with
  | (.ok (), d) => (d, st.2 + 1)
  | (.error _, d) => (d, st.2)

/-- Mandatory portal patch of the apply phase (src/cmd/execute.rs lines
386-401): failure is wrapped into a `PatchingError` hard stop. -/
def apply_portal (data : List Nat) : Except WowPatcherError (List Nat) :=
  match patch data portal_pattern (patternEmpty portal_pattern) with
  | (.ok (), d) => .ok d
  | (.error _, _) =>
    .error ⟨.PatchingError, "Failed to patch portal pattern - unsupported WoW version"⟩

/-- Mandatory RSA-modulus patch of the apply phase (src/cmd/execute.rs
lines 403-443): try the ConnectTo, Signature and Crypto candidate patterns
in order; if none matches, fail with a `PatchingError`. -/
def apply_rsa (data rsa : List Nat) : Except WowPatcherError (List Nat) :=
  match patch data connect_to_modulus_pattern rsa with
  | (.ok (), d) => .ok d
  | (.error _, d) =>
    match patch d signature_modulus_pattern rsa with
    | (.ok (), d2) => .ok d2
    | (.error _, d2) =>
      match patch d2 crypto_rsa_modulus_pattern rsa with
      | (.ok (), d3) => .ok d3
      | (.error _, _) =>
        .error ⟨.PatchingError,
          "Failed to patch RSA modulus - no known pattern found (unsupported WoW version)"⟩

/-- Optional Ed25519 patch of the apply phase (src/cmd/execute.rs lines
461-486): attempted only for client variants that use it; a miss only
warns. -/
def apply_ed (st : List Nat × Nat) (usesEd : Bool) (ed : List Nat) : List Nat × Nat :=
  if usesEd then try_patch st crypto_ed_public_key_pattern ed else st

/-- Optional version-URL patch chain of the apply phase (src/cmd/execute.rs
lines 488-533): try the v1, v2 and v3 patterns in order; the boolean
records whether the unified v3 pattern was the one patched. -/
def apply_version_urls (st : List Nat × Nat) (version_url : Option String)
    (build : Option Nat) : (List Nat × Nat) × Bool :=
  match patch st.1 version_url_pattern
      (create_url_replacement (version_url.getD (get_version_url build none none))
        version_url_pattern.length) with
  | (.ok (), d) => ((d, st.2 + 1), false)
  | (.error _, d) =>
    match patch d version_url_v2_pattern
        (create_url_replacement (version_url.getD (get_version_url build none none))
          version_url_v2_pattern.length) with
    | (.ok (), d2) => ((d2, st.2 + 1), false)
    | (.error _, d2) =>
      match patch d2 version_url_v3_pattern
          (create_url_replacement (version_url.getD (get_unified_api_url build))
            version_url_v3_pattern.length) with
      | (.ok (), d3) => ((d3, st.2 + 1), true)
      | (.error _, d3) => ((d3, st.2), false)

/-- Optional CDNs-URL patch of the apply phase (src/cmd/execute.rs lines
566-591): skipped when the unified v3 pattern already handled it; a miss
only warns. -/
def apply_cdns (st : List Nat × Nat) (cdns_url : Option String)
    (usedUnified : Bool) : List Nat × Nat :=
  if usedUnified then st
  else try_patch st cdns_url_pattern
    (create_url_replacement (cdns_url.getD get_cdns_url) cdns_url_pattern.length)

/-- The core of `execute_patch` (src/cmd/execute.rs lines 96-656), from the
point where the buffer has been read.  The file-system preludes (existence,
size bounds, read) and the final write, permission bits and macOS
code-signing removal are external collaborators and abstracted away; the
verbose printing carries no state.  The order is the source's: collect
every pattern offset, validate all of them, and only then branch on
dry-run; the apply branch runs the mandatory portal and RSA patches, then
the best-effort Ed25519, version-URL and CDNs patches, and writes the
result. -/
def execute_patch_core (data : List Nat) (keys : KeyConfig)
    (version_url cdns_url : Option String) (dry_run : Bool)
    (client : ClientInfo) (obj : ParsedObject) :
    Except WowPatcherError ExecOutcome :=
  match validate_patch_offsets obj (collect_offsets data client.usesEd25519) with
  | .error ve => .error ⟨.ValidationError, "Pattern validation failed:\n" ++ ve⟩
  | .ok () =>
    if dry_run then .ok .dryRunPreview
    else
      match apply_portal data with
      | .error e => .error e
      | .ok d1 =>
        match apply_rsa d1 keys.rsa_modulus with
        | .error e => .error e
        | .ok d2 =>
          let st := apply_ed (d2, 2) client.usesEd25519 keys.ed25519_public_key
          let stv := apply_version_urls st version_url client.buildNum
          let st3 := apply_cdns stv.1 cdns_url stv.2
          .ok (.wrote st3.1 st3.2)

/-- The ASCII bytes of the string ".actual.battle.net" (18 bytes). -/
def portalText : List Nat :=
  [46, 97, 99, 116, 117, 97, 108, 46, 98, 97, 116, 116, 108, 101, 46, 110, 101, 116]

/-- The end-to-end scenario buffer of C9: 2048 zero bytes with the ASCII
text ".actual.battle.net" written at offset 100. -/
def scenarioBuf : List Nat :=
  List.replicate 100 0 ++ (portalText ++ List.replicate 1930 0)

theorem matchAt_iff (data : List Nat) (p : Pattern) (i : Nat) :
    matchAt data p i = true ↔ WildcardMatchAt data p i := by
  simp [matchAt, WildcardMatchAt, List.all_eq_true, List.mem_range]

theorem scanFrom_eq_some (data : List Nat) (p : Pattern) :
    ∀ (fuel i j : Nat), scanFrom data p i fuel = some j →
      matchAt data p j = true ∧ i ≤ j ∧ j < i + fuel ∧
        ∀ m, i ≤ m → m < j → matchAt data p m = false := by
  intro fuel
  induction fuel with
  | zero => intro i j h; simp [scanFrom] at h
  | succ n ih =>
    intro i j h
    by_cases hm : matchAt data p i = true
    · simp [scanFrom, hm] at h
      subst h
      exact ⟨hm, le_refl _, by omega, fun m h1 h2 => by omega⟩
    · simp [scanFrom, hm] at h
      obtain ⟨hj, hij, hjb, hmin⟩ := ih (i + 1) j h
      refine ⟨hj, by omega, by omega, fun m h1 h2 => ?_⟩
      rcases Nat.eq_or_lt_of_le h1 with h1 | h1
      · subst h1; simpa using hm
      · exact hmin m h1 h2

theorem scanFrom_isSome (data : List Nat) (p : Pattern) :
    ∀ (fuel i k : Nat), i ≤ k → k < i + fuel → matchAt data p k = true →
      ∃ j, scanFrom data p i fuel = some j := by
  intro fuel
  induction fuel with
  | zero => intro i k h1 h2; omega
  | succ n ih =>
    intro i k h1 h2 hk
    by_cases hm : matchAt data p i = true
    · exact ⟨i, by simp [scanFrom, hm]⟩
    · rcases Nat.eq_or_lt_of_le h1 with h | h
      · subst h; exact absurd hk hm
      · obtain ⟨j, hj⟩ := ih (i + 1) k h (by omega) hk
        exact ⟨j, by simp [scanFrom, hm, hj]⟩

theorem find_pattern_eq_some (data : List Nat) (p : Pattern) (j : Nat)
    (h : find_pattern data p = some j) :
    p ≠ [] ∧ j + p.length ≤ data.length ∧ matchAt data p j = true ∧
      ∀ m < j, matchAt data p m = false := by
  unfold find_pattern at h
  by_cases hg : p.isEmpty || data.length < p.length
  · simp [hg] at h
  · simp only [hg, if_false] at h
    obtain ⟨hj, _, hjb, hmin⟩ := scanFrom_eq_some data p _ 0 j h
    simp only [Bool.or_eq_true, List.isEmpty_iff, decide_eq_true_eq, not_or] at hg
    exact ⟨hg.1, by omega, hj, fun m hm => hmin m (Nat.zero_le m) hm⟩

theorem find_pattern_first (b : List Nat) (p : Pattern) (k : Nat)
    (hne : p ≠ []) (hk : k + p.length ≤ b.length)
    (hmatch : WildcardMatchAt b p k) :
    ∃ j, find_pattern b p = some j ∧ j ≤ k ∧ WildcardMatchAt b p j ∧
      ∀ m, m + p.length ≤ b.length → m < j → ¬ WildcardMatchAt b p m := by
  have hple : p.length ≤ b.length := by omega
  have hg : (p.isEmpty || decide (b.length < p.length)) = false := by
    simp [List.isEmpty_iff, hne, Nat.not_lt.mpr hple]
  have hkin : k < 0 + (b.length - p.length + 1) := by
    have : 0 < p.length := List.length_pos.mpr hne
    omega
  obtain ⟨j, hj⟩ := scanFrom_isSome b p (b.length - p.length + 1) 0 k
    (Nat.zero_le k) hkin ((matchAt_iff b p k).mpr hmatch)
  obtain ⟨hjm, _, _, hmin⟩ := scanFrom_eq_some b p _ 0 j hj
  have hfind : find_pattern b p = some j := by
    unfold find_pattern; simp [hg]; exact hj
  have hjk : j ≤ k := by
    by_contra hlt
    have hfalse := hmin k (Nat.zero_le k) (by omega)
    have htrue := (matchAt_iff b p k).mpr hmatch
    rw [htrue] at hfalse
    simp at hfalse
  refine ⟨j, hfind, hjk, (matchAt_iff b p j).mp hjm, fun m _ hmj hwm => ?_⟩
  have hfalse := hmin m (Nat.zero_le m) hmj
  have htrue := (matchAt_iff b p m).mpr hwm
  rw [htrue] at hfalse
  simp at hfalse

/-- C1: wildcard find correctness.  If the non-empty pattern `p` matches
(under wildcard semantics) at a valid offset `k` of the buffer `b`, then
`find_pattern` returns `some j` with `j ≤ k`, the bytes at `j` match `p`
under wildcard semantics, and `j` is the lowest valid offset at which `p`
matches. -/
theorem find_pattern_correct (b : List Nat) (p : Pattern) (k : Nat)
    (hne : p ≠ []) (hk : k + p.length ≤ b.length)
    (hmatch : WildcardMatchAt b p k) :
    ∃ j, find_pattern b p = some j ∧ j ≤ k ∧ WildcardMatchAt b p j ∧
      ∀ m, m + p.length ≤ b.length → m < j → ¬ WildcardMatchAt b p m :=
  find_pattern_first b p k hne hk hmatch

/-- Witness for C1 at a concrete input: the pattern `[2, -1]` is injected at
offset 2 of `[0, 1, 2, 3]` and `find_pattern` locates it there. -/
theorem find_pattern_correct_witness :
    ([(2 : Int), -1] : Pattern) ≠ [] ∧
      2 + ([(2 : Int), -1] : Pattern).length ≤ ([0, 1, 2, 3] : List Nat).length ∧
      WildcardMatchAt [0, 1, 2, 3] [2, -1] 2 ∧
      (∃ j, find_pattern [0, 1, 2, 3] [2, -1] = some j ∧ j ≤ 2 ∧
        WildcardMatchAt [0, 1, 2, 3] [2, -1] j ∧
        ∀ m, m + ([(2 : Int), -1] : Pattern).length ≤ ([0, 1, 2, 3] : List Nat).length →
          m < j → ¬ WildcardMatchAt [0, 1, 2, 3] [2, -1] m) :=
  ⟨by decide, by decide, by decide,
    find_pattern_correct [0, 1, 2, 3] [2, -1] 2 (by decide) (by decide) (by decide)⟩

/-- C10: only `-1` acts as a wildcard.  A pattern element outside both the
byte range `0..=255` and the sentinel `-1` can equal no buffer byte, so the
pattern matches nowhere and `find_pattern` returns `none`. -/
theorem find_pattern_none_of_out_of_range (b : List Nat) (p : Pattern) (v : Int)
    (hv : v ∈ p) (hne : v ≠ -1) (hout : v < 0 ∨ 255 < v)
    (hb : ∀ x ∈ b, x < 256) :
    find_pattern b p = none := by
  unfold find_pattern
  by_cases hg : p.isEmpty || decide (b.length < p.length)
  · simp [hg]
  · simp only [hg, if_false]
    simp only [Bool.or_eq_true, List.isEmpty_iff, decide_eq_true_eq, not_or] at hg
    obtain ⟨j0, hj0, hj0v⟩ := List.mem_iff_getElem.mp hv
    cases hscan : scanFrom b p 0 (b.length - p.length + 1) with
    | none => rfl
    | some j =>
      exfalso
      obtain ⟨hjm, _, hjb, _⟩ := scanFrom_eq_some b p _ 0 j hscan
      have hw := (matchAt_iff b p j).mp hjm j0 hj0
      have hpd : p.getD j0 0 = v := by
        rw [List.getD_eq_getElem p 0 hj0, hj0v]
      rw [hpd] at hw
      have hidx : j + j0 < b.length := by omega
      have hmem : b.getD (j + j0) 0 ∈ b := by
        rw [List.getD_eq_getElem b 0 hidx]
        exact List.getElem_mem _
      have hlt : b.getD (j + j0) 0 < 256 := hb _ hmem
      rcases hw with hw | hw
      · exact hne hw
      · omega

/-- Witness for C10: the value 300 is neither a byte nor the wildcard, so a
pattern containing it never matches. -/
theorem find_pattern_none_of_out_of_range_witness :
    ((300 : Int) ∈ ([300] : Pattern)) ∧ (300 : Int) ≠ -1 ∧
      ((300 : Int) < 0 ∨ 255 < (300 : Int)) ∧ (∀ x ∈ ([0, 1] : List Nat), x < 256) ∧
      find_pattern [0, 1] [300] = none :=
  ⟨by decide, by decide, by decide, by decide,
    find_pattern_none_of_out_of_range [0, 1] [300] 300 (by decide) (by decide)
      (by decide) (by decide)⟩

theorem find_pattern_degenerate_none (b : List Nat) (p : Pattern)
    (h : p = [] ∨ b.length < p.length) : find_pattern b p = none := by
  unfold find_pattern
  rcases h with h | h
  · simp [h]
  · simp [h]

theorem patch_error_eq (b : List Nat) (p : Pattern) (r : List Nat)
    (h : b = [] ∨ b.length < p.length ∨ find_pattern b p = none) :
    ∃ e : WowPatcherError, patch b p r = (.error e, b) ∧
      e.category = .PatchingError := by
  by_cases hb : b = []
  · subst hb
    exact ⟨⟨.PatchingError, "cannot patch empty data"⟩, by simp [patch], rfl⟩
  · by_cases hlen : b.length < p.length
    · refine ⟨⟨.PatchingError, "pattern longer than data"⟩, ?_, rfl⟩
      simp [patch, List.isEmpty_iff, hb, hlen]
    · have hfind : find_pattern b p = none := by tauto
      refine ⟨⟨.PatchingError, "pattern not found in data"⟩, ?_, rfl⟩
      simp [patch, List.isEmpty_iff, hb, hlen, hfind]

/-- C2: error cases and atomicity.  `find_pattern` returns `none` on an
empty pattern or a pattern longer than the buffer; and `patch` returns a
`PatchingError` and hands back the buffer byte-for-byte unchanged whenever
the buffer is empty, the pattern is longer than the buffer, or the pattern
has no match (which includes the empty pattern). -/
theorem patch_error_cases (b : List Nat) (p : Pattern) (r : List Nat) :
    ((p = [] ∨ b.length < p.length) → find_pattern b p = none) ∧
      ((b = [] ∨ b.length < p.length ∨ find_pattern b p = none) →
        ∃ e : WowPatcherError, patch b p r = (.error e, b) ∧
          e.category = .PatchingError) :=
  ⟨find_pattern_degenerate_none b p, patch_error_eq b p r⟩

/-- Witness for C2 at the concrete input `b = []`, `p = [5]`. -/
theorem patch_error_cases_witness :
    find_pattern [] [5] = none ∧
      ∃ e : WowPatcherError, patch [] [5] [] = (.error e, []) ∧
        e.category = .PatchingError :=
  ⟨(patch_error_cases [] [5] []).1 (Or.inr (by decide)),
    (patch_error_cases [] [5] []).2 (Or.inl rfl)⟩

theorem copySlice_length (data : List Nat) (pos : Nat) (repl : List Nat)
    (h : pos + repl.length ≤ data.length) :
    (copySlice data pos repl).length = data.length := by
  simp [copySlice]
  omega

theorem copySlice_getD (data : List Nat) (pos : Nat) (repl : List Nat)
    (h : pos + repl.length ≤ data.length) (i : Nat) :
    (copySlice data pos repl).getD i 0 =
      if pos ≤ i ∧ i < pos + repl.length then repl.getD (i - pos) 0
      else data.getD i 0 := by
  have htl : (data.take pos).length = pos := by
    rw [List.length_take]; omega
  unfold copySlice
  rw [List.append_assoc]
  by_cases h1 : i < pos
  · rw [List.getD_append _ _ _ _ (by omega)]
    rw [if_neg (by omega)]
    have hi : i < data.length := by omega
    rw [List.getD_eq_getElem _ _ (by omega), List.getD_eq_getElem _ _ hi,
      List.getElem_take]
  · rw [List.getD_append_right _ _ _ _ (by omega), htl]
    by_cases h2 : i < pos + repl.length
    · rw [List.getD_append _ _ _ _ (by omega)]
      rw [if_pos ⟨by omega, h2⟩]
    · rw [List.getD_append_right _ _ _ _ (by omega)]
      rw [if_neg (by omega)]
      by_cases h3 : i < data.length
      · have hdl : i - pos - repl.length < (data.drop (pos + repl.length)).length := by
          rw [List.length_drop]; omega
        rw [List.getD_eq_getElem _ _ hdl, List.getD_eq_getElem _ _ h3,
          List.getElem_drop]
        congr 1
        omega
      · rw [List.getD_eq_default, List.getD_eq_default]
        · omega
        · rw [List.length_drop]; omega

/-- C3: success frame of `patch`.  When `patch` succeeds, it found the
pattern at some offset `pos`, the buffer keeps its length, the bytes at
`pos .. pos + min (len r) (len p)` now hold the first `min (len r) (len p)`
bytes of the replacement, and every other byte is unchanged — including the
tail of the matched region when the replacement is shorter than the
pattern. -/
theorem patch_success_frame (b : List Nat) (p : Pattern) (r d : List Nat)
    (h : patch b p r = (.ok (), d)) :
    ∃ pos, find_pattern b p = some pos ∧ pos + p.length ≤ b.length ∧
      d.length = b.length ∧
      (∀ i, pos ≤ i → i < pos + min r.length p.length →
        d.getD i 0 = r.getD (i - pos) 0) ∧
      (∀ i, i < pos ∨ pos + min r.length p.length ≤ i →
        d.getD i 0 = b.getD i 0) := by
  unfold patch at h
  by_cases hb : b.isEmpty
  · simp [hb] at h
  · by_cases hlen : b.length < p.length
    · simp [hb, hlen] at h
    · cases hfind : find_pattern b p with
      | none => simp [hb, hlen, hfind] at h
      | some pos =>
        simp only [hb, hlen, hfind, if_false, Bool.false_eq_true] at h
        obtain ⟨-, hbound, -, -⟩ := find_pattern_eq_some b p pos hfind
        have hd : d = copySlice b pos (r.take (min r.length p.length)) := by
          exact (Prod.mk.injEq _ _ _ _ ▸ h).2.symm
        have hrl : (r.take (min r.length p.length)).length = min r.length p.length := by
          rw [List.length_take]; omega
        have hfit : pos + (r.take (min r.length p.length)).length ≤ b.length := by
          rw [hrl]; omega
        subst hd
        refine ⟨pos, rfl, by omega, copySlice_length _ _ _ hfit, ?_, ?_⟩
        · intro i hi1 hi2
          rw [copySlice_getD _ _ _ hfit i, if_pos ⟨hi1, by omega⟩]
          have : i - pos < min r.length p.length := by omega
          rw [List.getD_eq_getElem _ _ (by omega : i - pos < (r.take _).length),
            List.getD_eq_getElem _ _ (by omega : i - pos < r.length),
            List.getElem_take]
        · intro i hi
          rw [copySlice_getD _ _ _ hfit i, if_neg (by omega)]

/-- Witness for C3: patching `[1, 2, 3]` with pattern `[2]` and replacement
`[9, 9]` succeeds, writes `min 2 1 = 1` byte at the match offset 1 and
leaves the rest unchanged. -/
theorem patch_success_frame_witness :
    patch [1, 2, 3] [2] [9, 9] = (.ok (), [1, 9, 3]) ∧
      ∃ pos, find_pattern [1, 2, 3] [2] = some pos ∧
        pos + ([2] : Pattern).length ≤ ([1, 2, 3] : List Nat).length ∧
        ([1, 9, 3] : List Nat).length = ([1, 2, 3] : List Nat).length ∧
        (∀ i, pos ≤ i → i < pos + min ([9, 9] : List Nat).length ([2] : Pattern).length →
          ([1, 9, 3] : List Nat).getD i 0 = ([9, 9] : List Nat).getD (i - pos) 0) ∧
        (∀ i, i < pos ∨ pos + min ([9, 9] : List Nat).length ([2] : Pattern).length ≤ i →
          ([1, 9, 3] : List Nat).getD i 0 = ([1, 2, 3] : List Nat).getD i 0) :=
  ⟨rfl, patch_success_frame [1, 2, 3] [2] [9, 9] [1, 9, 3] rfl⟩

theorem validate_foldl_eq (obj : ParsedObject) :
    ∀ (offsets : List (Nat × String)) (acc : List String),
      offsets.foldl (validateStep obj) acc =
        acc ++ offsets.filterMap (offsetFailureMsg obj) := by
  intro offsets
  induction offsets with
  | nil => intro acc; simp
  | cons q rest ih =>
    intro acc
    rw [List.foldl_cons, List.filterMap_cons, ih]
    cases hc : check_offset_section obj q.1 with
    | some sec =>
      by_cases hp : sec.is_patchable
      · simp [validateStep, offsetFailureMsg, hc, hp]
      · simp [validateStep, offsetFailureMsg, hc, hp]
    | none =>
      simp [validateStep, offsetFailureMsg, hc]

theorem validate_patch_offsets_eq (obj : ParsedObject) (offsets : List (Nat × String)) :
    validate_patch_offsets obj offsets =
      (if (offsets.filterMap (offsetFailureMsg obj)).isEmpty then .ok ()
       else .error (String.intercalate "\n" (offsets.filterMap (offsetFailureMsg obj)))) := by
  unfold validate_patch_offsets
  rw [validate_foldl_eq obj offsets []]
  simp

/-- C5: batch validation contract.  `validate_patch_offsets` succeeds
exactly when every listed offset classifies to a patchable section; an
empty list always succeeds; and on failure the error is the newline-joined
list holding exactly one descriptive message per failing offset. -/
theorem validate_patch_offsets_spec (obj : ParsedObject) (offsets : List (Nat × String)) :
    (validate_patch_offsets obj offsets = .ok () ↔
      ∀ q ∈ offsets, ∃ s, check_offset_section obj q.1 = some s ∧ s.is_patchable = true)
    ∧ validate_patch_offsets obj ([] : List (Nat × String)) = .ok ()
    ∧ (∀ m, validate_patch_offsets obj offsets = .error m →
        m = String.intercalate "\n" (offsets.filterMap (offsetFailureMsg obj))) := by
  have hnone : ∀ q : Nat × String, offsetFailureMsg obj q = none ↔
      ∃ s, check_offset_section obj q.1 = some s ∧ s.is_patchable = true := by
    intro q
    unfold offsetFailureMsg
    cases hc : check_offset_section obj q.1 with
    | some sec =>
      by_cases hp : sec.is_patchable
      · simp [hp]
      · simp [hp]
    | none => simp
  refine ⟨?_, by simp [validate_patch_offsets], ?_⟩
  · rw [validate_patch_offsets_eq]
    by_cases he : (offsets.filterMap (offsetFailureMsg obj)).isEmpty
    · rw [if_pos he]
      rw [List.isEmpty_iff, List.filterMap_eq_nil_iff] at he
      constructor
      · intro _ q hq
        exact (hnone q).mp (he q hq)
      · intro _
        rfl
    · rw [if_neg he]
      rw [List.isEmpty_iff, List.filterMap_eq_nil_iff] at he
      push_neg at he
      obtain ⟨q, hq, hfail⟩ := he
      constructor
      · intro h
        exact Except.noConfusion h
      · intro h
        exact absurd ((hnone q).mpr (h q hq)) hfail
  · intro m h
    rw [validate_patch_offsets_eq] at h
    by_cases he : (offsets.filterMap (offsetFailureMsg obj)).isEmpty
    · rw [if_pos he] at h
      exact Except.noConfusion h
    · rw [if_neg he] at h
      injection h with h2
      exact h2.symm

/-- Witness for C5: one offset inside a non-patchable `.text` PE section
produces exactly its one message, and the empty list validates. -/
theorem validate_patch_offsets_spec_witness :
    validate_patch_offsets
        (.PE [⟨".text", 0, 16, 4096, 16⟩]) ([] : List (Nat × String)) = .ok () ∧
      validate_patch_offsets (.PE [⟨".text", 0, 16, 4096, 16⟩]) [(5, "Portal")] =
        .error (String.intercalate "\n"
          ([(5, "Portal")].filterMap (offsetFailureMsg (.PE [⟨".text", 0, 16, 4096, 16⟩])))) :=
  ⟨(validate_patch_offsets_spec (.PE [⟨".text", 0, 16, 4096, 16⟩]) [(5, "Portal")]).2.1,
    by
      have h := (validate_patch_offsets_spec (.PE [⟨".text", 0, 16, 4096, 16⟩])
        [(5, "Portal")]).2.2 (msgNonPatchable "Portal" 5 ".text") rfl
      rw [← h]
      rfl⟩

/-- C7: PE section classification.  For a buffer parsing as a PE file, an
offset inside some section's raw-data file range yields `some` info whose
`is_patchable` flag is true exactly when that (first containing) section's
trimmed name is `.rdata` or `.data` — in particular false for `.text` —
and an offset outside every section's file range yields `none`. -/
theorem check_pe_offset_classification (sections : List PESection) (offset : Nat) :
    ((∃ s ∈ sections, s.pointer_to_raw_data ≤ offset ∧
        offset < s.pointer_to_raw_data + s.size_of_raw_data) →
      ∃ info, check_offset_section (.PE sections) offset = some info ∧
        (info.is_patchable = true ↔ (info.name = ".rdata" ∨ info.name = ".data")) ∧
        (info.name = ".text" → info.is_patchable = false))
    ∧ ((∀ s ∈ sections, ¬(s.pointer_to_raw_data ≤ offset ∧
          offset < s.pointer_to_raw_data + s.size_of_raw_data)) →
        check_offset_section (.PE sections) offset = none) := by
  show ((∃ s ∈ sections, _) → ∃ info, check_pe_offset sections offset = some info ∧ _) ∧
    (_ → check_pe_offset sections offset = none)
  induction sections with
  | nil => exact ⟨fun h => by simp at h, fun _ => rfl⟩
  | cons s rest ih =>
    constructor
    · intro hex
      by_cases hin : s.pointer_to_raw_data ≤ offset ∧
          offset < s.pointer_to_raw_data + s.size_of_raw_data
      · refine ⟨{ name := trimTrailingNuls s.nameRaw
                  virtual_address := s.virtual_address
                  virtual_size := s.virtual_size
                  file_offset := s.pointer_to_raw_data
                  is_patchable := trimTrailingNuls s.nameRaw == ".rdata" ||
                    trimTrailingNuls s.nameRaw == ".data" }, ?_, ?_, ?_⟩
        · simp only [check_pe_offset]
          rw [if_pos hin]
        · simp only [Bool.or_eq_true, beq_iff_eq]
        · intro hname
          simp only at hname ⊢
          rw [hname]
          decide
      · obtain ⟨t, ht, htin⟩ := hex
        rcases List.mem_cons.mp ht with rfl | ht
        · exact absurd htin hin
        · obtain ⟨info, hi, hiff⟩ := ih.1 ⟨t, ht, htin⟩
          refine ⟨info, ?_, hiff⟩
          simp only [check_pe_offset]
          rw [if_neg hin]
          exact hi
    · intro hall
      have hin : ¬(s.pointer_to_raw_data ≤ offset ∧
          offset < s.pointer_to_raw_data + s.size_of_raw_data) :=
        hall s (List.mem_cons_self s rest)
      have hrest := ih.2 (fun t ht => hall t (List.mem_cons_of_mem s ht))
      simp only [check_pe_offset]
      rw [if_neg hin]
      exact hrest

/-- Witness for C7: a single `.text` section (NUL-padded raw name) covering
offsets 0-15; offset 5 classifies as not patchable. -/
theorem check_pe_offset_classification_witness :
    (∃ s ∈ [(⟨".text\x00\x00\x00", 0, 16, 4096, 16⟩ : PESection)],
        s.pointer_to_raw_data ≤ 5 ∧ 5 < s.pointer_to_raw_data + s.size_of_raw_data) ∧
      ∃ info, check_offset_section (.PE [⟨".text\x00\x00\x00", 0, 16, 4096, 16⟩]) 5 =
          some info ∧
        (info.is_patchable = true ↔ (info.name = ".rdata" ∨ info.name = ".data")) ∧
        (info.name = ".text" → info.is_patchable = false) :=
  ⟨⟨_, List.mem_singleton_self _, by decide⟩,
    (check_pe_offset_classification [⟨".text\x00\x00\x00", 0, 16, 4096, 16⟩] 5).1
      ⟨_, List.mem_singleton_self _, by decide⟩⟩

theorem allEqFirst_iff (l : List Nat) (h : 0 < l.length) :
    l.all (fun b => b == l.getD 0 0) = true ↔ ∃ v, ∀ b ∈ l, b = v := by
  rw [List.all_eq_true]
  constructor
  · intro hall
    exact ⟨l.getD 0 0, fun b hb => by simpa using hall b hb⟩
  · rintro ⟨v, hv⟩ b hb
    have hhead : l.getD 0 0 = v := by
      have : l.getD 0 0 ∈ l := by
        rw [List.getD_eq_getElem _ _ h]
        exact List.getElem_mem _
      exact hv _ this
    rw [hv b hb, hhead]
    exact beq_self_eq_true v

theorem allZero_to_exists (l : List Nat)
    (h : l.all (fun b => b == 0) = true) : ∃ v, ∀ b ∈ l, b = v := by
  rw [List.all_eq_true] at h
  exact ⟨0, fun b hb => by simpa using h b hb⟩

theorem validate_ok_iff (c : KeyConfig) :
    c.validate = .ok () ↔ ValidKeyMaterial c := by
  unfold KeyConfig.validate ValidKeyMaterial
  by_cases h1 : c.rsa_modulus.length = 256
  case neg =>
    rw [if_pos h1]
    constructor
    · intro h; exact Except.noConfusion h
    · rintro ⟨hl, -⟩; exact absurd hl h1
  case pos =>
    rw [if_neg (by omega : ¬c.rsa_modulus.length ≠ 256)]
    have hrpos : 0 < c.rsa_modulus.length := by omega
    by_cases h2 : c.rsa_modulus.all (fun b => b == 0) = true
    · rw [if_pos h2]
      constructor
      · intro h; exact Except.noConfusion h
      · rintro ⟨-, -, hno, -⟩
        exact absurd (allZero_to_exists _ h2) hno
    · rw [if_neg h2]
      by_cases h3 : c.rsa_modulus.all (fun b => b == c.rsa_modulus.getD 0 0) = true
      · rw [if_pos h3]
        constructor
        · intro h; exact Except.noConfusion h
        · rintro ⟨-, -, hno, -⟩
          exact absurd ((allEqFirst_iff _ hrpos).mp h3) hno
      · rw [if_neg h3]
        by_cases h4 : c.ed25519_public_key.length = 32
        · rw [if_neg (by omega : ¬c.ed25519_public_key.length ≠ 32)]
          have hepos : 0 < c.ed25519_public_key.length := by omega
          by_cases h5 : c.ed25519_public_key.all (fun b => b == 0) = true
          · rw [if_pos h5]
            constructor
            · intro h; exact Except.noConfusion h
            · rintro ⟨-, -, -, hno⟩
              exact absurd (allZero_to_exists _ h5) hno
          · rw [if_neg h5]
            by_cases h6 : c.ed25519_public_key.all
                (fun b => b == c.ed25519_public_key.getD 0 0) = true
            · rw [if_pos h6]
              constructor
              · intro h; exact Except.noConfusion h
              · rintro ⟨-, -, -, hno⟩
                exact absurd ((allEqFirst_iff _ hepos).mp h6) hno
            · rw [if_neg h6]
              constructor
              · intro _
                refine ⟨h1, h4, fun hex => ?_, fun hex => ?_⟩
                · exact h3 ((allEqFirst_iff _ hrpos).mpr hex)
                · exact h6 ((allEqFirst_iff _ hepos).mpr hex)
              · intro _; rfl
        · rw [if_pos h4]
          constructor
          · intro h; exact Except.noConfusion h
          · rintro ⟨-, hl, -⟩; exact absurd hl h4

theorem validate_error_category (c : KeyConfig) (err : WowPatcherError)
    (h : c.validate = .error err) : err.category = .ValidationError := by
  unfold KeyConfig.validate at h
  split at h
  · injection h with h2; subst h2; rfl
  · split at h
    · injection h with h2; subst h2; rfl
    · split at h
      · injection h with h2; subst h2; rfl
      · split at h
        · injection h with h2; subst h2; rfl
        · split at h
          · injection h with h2; subst h2; rfl
          · split at h
            · injection h with h2; subst h2; rfl
            · exact Except.noConfusion h

set_option maxRecDepth 8192 in
/-- C8: KeyConfig invariant.  `validate` succeeds exactly on valid key
material; the TrinityCore defaults are valid; every `KeyConfig` produced by
`custom`, the hex loaders or the file loaders is valid; and invalid raw
key material makes `custom` fail with a `ValidationError` instead of
producing a `KeyConfig`. -/
theorem keyconfig_invariants (c c2 : KeyConfig) (r e : List Nat)
    (hexText : String) (fileBytes : List Nat) :
    (c.validate = .ok () ↔ ValidKeyMaterial c)
    ∧ ValidKeyMaterial KeyConfig.trinity_core
    ∧ (KeyConfig.custom r e = .ok c2 →
        c2 = ⟨r, e⟩ ∧ ValidKeyMaterial c2)
    ∧ (¬ ValidKeyMaterial ⟨r, e⟩ →
        ∃ err, KeyConfig.custom r e = .error err ∧ err.category = .ValidationError)
    ∧ (c.with_rsa_from_hex hexText = .ok c2 → ValidKeyMaterial c2)
    ∧ (c.with_ed25519_from_hex hexText = .ok c2 → ValidKeyMaterial c2)
    ∧ (c.with_rsa_from_file fileBytes = .ok c2 → ValidKeyMaterial c2)
    ∧ (c.with_ed25519_from_file fileBytes = .ok c2 → ValidKeyMaterial c2) := by
  have htrinity : ValidKeyMaterial KeyConfig.trinity_core := by
    refine ⟨by decide, by decide, ?_, ?_⟩
    · rintro ⟨v, hv⟩
      have ha := hv 0x5F (by decide)
      have hb := hv 0xD6 (by decide)
      omega
    · rintro ⟨v, hv⟩
      have ha := hv 0x02 (by decide)
      have hb := hv 0x59 (by decide)
      omega
  refine ⟨validate_ok_iff c, htrinity, ?_, ?_, ?_, ?_, ?_, ?_⟩
  · intro h
    unfold KeyConfig.custom at h
    split at h
    · rename_i hv
      injection h with h2
      exact ⟨h2.symm, h2 ▸ (validate_ok_iff _).mp hv⟩
    · exact Except.noConfusion h
  · intro hbad
    unfold KeyConfig.custom
    split
    · rename_i hv
      exact absurd ((validate_ok_iff _).mp hv) hbad
    · rename_i err hv
      exact ⟨err, rfl, validate_error_category _ err hv⟩
  · intro h
    unfold KeyConfig.with_rsa_from_hex at h
    split at h
    · exact Except.noConfusion h
    · split at h
      · exact Except.noConfusion h
      · split at h
        · rename_i hv
          injection h with h2
          exact h2 ▸ (validate_ok_iff _).mp hv
        · exact Except.noConfusion h
  · intro h
    unfold KeyConfig.with_ed25519_from_hex at h
    split at h
    · exact Except.noConfusion h
    · split at h
      · exact Except.noConfusion h
      · split at h
        · rename_i hv
          injection h with h2
          exact h2 ▸ (validate_ok_iff _).mp hv
        · exact Except.noConfusion h
  · intro h
    unfold KeyConfig.with_rsa_from_file at h
    split at h
    · exact Except.noConfusion h
    · split at h
      · rename_i hv
        injection h with h2
        exact h2 ▸ (validate_ok_iff _).mp hv
      · exact Except.noConfusion h
  · intro h
    unfold KeyConfig.with_ed25519_from_file at h
    split at h
    · exact Except.noConfusion h
    · split at h
      · rename_i hv
        injection h with h2
        exact h2 ▸ (validate_ok_iff _).mp hv
      · exact Except.noConfusion h

/-- Witness for C8: the defaults are valid key material, and an all-zero
256-byte RSA candidate is rejected with a `ValidationError`. -/
theorem keyconfig_invariants_witness :
    ValidKeyMaterial KeyConfig.trinity_core ∧
      (¬ ValidKeyMaterial ⟨List.replicate 256 0, List.replicate 32 1⟩) ∧
      ∃ err, KeyConfig.custom (List.replicate 256 0) (List.replicate 32 1) = .error err ∧
        err.category = .ValidationError := by
  have hbad : ¬ ValidKeyMaterial ⟨List.replicate 256 0, List.replicate 32 1⟩ := by
    rintro ⟨-, -, hno, -⟩
    exact hno ⟨0, fun b hb => List.eq_of_mem_replicate hb⟩
  refine ⟨(keyconfig_invariants KeyConfig.trinity_core KeyConfig.trinity_core
      (List.replicate 256 0) (List.replicate 32 1) "" []).2.1, hbad, ?_⟩
  exact (keyconfig_invariants KeyConfig.trinity_core KeyConfig.trinity_core
      (List.replicate 256 0) (List.replicate 32 1) "" []).2.2.2.1 hbad

theorem apply_portal_err (data : List Nat)
    (h : find_pattern data portal_pattern = none) :
    apply_portal data =
      .error ⟨.PatchingError, "Failed to patch portal pattern - unsupported WoW version"⟩ := by
  obtain ⟨e, he, -⟩ := patch_error_eq data portal_pattern
    (patternEmpty portal_pattern) (Or.inr (Or.inr h))
  unfold apply_portal
  rw [he]

theorem apply_portal_ok (data d1 : List Nat)
    (h : patch data portal_pattern (patternEmpty portal_pattern) = (.ok (), d1)) :
    apply_portal data = .ok d1 := by
  unfold apply_portal
  rw [h]

theorem apply_rsa_err (data rsa : List Nat)
    (h1 : find_pattern data connect_to_modulus_pattern = none)
    (h2 : find_pattern data signature_modulus_pattern = none)
    (h3 : find_pattern data crypto_rsa_modulus_pattern = none) :
    apply_rsa data rsa =
      .error ⟨.PatchingError,
        "Failed to patch RSA modulus - no known pattern found (unsupported WoW version)"⟩ := by
  obtain ⟨e1, he1, -⟩ := patch_error_eq data connect_to_modulus_pattern rsa (Or.inr (Or.inr h1))
  obtain ⟨e2, he2, -⟩ := patch_error_eq data signature_modulus_pattern rsa (Or.inr (Or.inr h2))
  obtain ⟨e3, he3, -⟩ := patch_error_eq data crypto_rsa_modulus_pattern rsa (Or.inr (Or.inr h3))
  unfold apply_rsa
  rw [he1]
  dsimp only
  rw [he2]
  dsimp only
  rw [he3]

theorem apply_rsa_ok_first (data rsa d2 : List Nat)
    (h : patch data connect_to_modulus_pattern rsa = (.ok (), d2)) :
    apply_rsa data rsa = .ok d2 := by
  unfold apply_rsa
  rw [h]

theorem try_patch_none (st : List Nat × Nat) (p : Pattern) (repl : List Nat)
    (h : find_pattern st.1 p = none) : try_patch st p repl = st := by
  obtain ⟨e, he, -⟩ := patch_error_eq st.1 p repl (Or.inr (Or.inr h))
  unfold try_patch
  rw [he]

theorem apply_ed_none (st : List Nat × Nat) (usesEd : Bool) (ed : List Nat)
    (h : find_pattern st.1 crypto_ed_public_key_pattern = none) :
    apply_ed st usesEd ed = st := by
  unfold apply_ed
  cases usesEd with
  | false => rfl
  | true => simpa using try_patch_none st crypto_ed_public_key_pattern ed h

theorem apply_version_urls_none (st : List Nat × Nat) (version_url : Option String)
    (build : Option Nat)
    (h1 : find_pattern st.1 version_url_pattern = none)
    (h2 : find_pattern st.1 version_url_v2_pattern = none)
    (h3 : find_pattern st.1 version_url_v3_pattern = none) :
    apply_version_urls st version_url build = (st, false) := by
  obtain ⟨e1, he1, -⟩ := patch_error_eq st.1 version_url_pattern
    (create_url_replacement (version_url.getD (get_version_url build none none))
      version_url_pattern.length) (Or.inr (Or.inr h1))
  obtain ⟨e2, he2, -⟩ := patch_error_eq st.1 version_url_v2_pattern
    (create_url_replacement (version_url.getD (get_version_url build none none))
      version_url_v2_pattern.length) (Or.inr (Or.inr h2))
  obtain ⟨e3, he3, -⟩ := patch_error_eq st.1 version_url_v3_pattern
    (create_url_replacement (version_url.getD (get_unified_api_url build))
      version_url_v3_pattern.length) (Or.inr (Or.inr h3))
  unfold apply_version_urls
  rw [he1]
  dsimp only
  rw [he2]
  dsimp only
  rw [he3]

theorem apply_cdns_none (st : List Nat × Nat) (cdns_url : Option String)
    (h : find_pattern st.1 cdns_url_pattern = none) :
    apply_cdns st cdns_url false = st := by
  unfold apply_cdns
  simpa using try_patch_none st cdns_url_pattern
    (create_url_replacement (cdns_url.getD get_cdns_url) cdns_url_pattern.length) h

/-- C4 (amended): validation runs before the dry-run branch, so when any
discovered pattern offset fails section validation, `execute_patch` aborts
with a `ValidationError` even in dry-run mode — the dry-run report is never
reached; no buffer mutation or file write happens (the error return
precedes both). -/
theorem dry_run_hard_stops_on_validation (data : List Nat) (keys : KeyConfig)
    (version_url cdns_url : Option String) (client : ClientInfo)
    (obj : ParsedObject) (m : String)
    (hval : validate_patch_offsets obj (collect_offsets data client.usesEd25519) =
      .error m) :
    execute_patch_core data keys version_url cdns_url true client obj =
      .error ⟨.ValidationError, "Pattern validation failed:\n" ++ m⟩ := by
  unfold execute_patch_core
  rw [hval]

/-- Counterexample to C4 as stated: a 30-byte buffer with the portal text
at offset 10, parsing as a PE file whose only section is a non-patchable
`.text` section covering the whole file.  In dry-run mode the operation
does NOT report and succeed — it aborts with a `ValidationError`. -/
theorem dry_run_tolerance_counterexample :
    execute_patch_core (List.replicate 10 0 ++ portalText ++ List.replicate 2 0)
        KeyConfig.trinity_core none none true ⟨true, none⟩
        (.PE [⟨".text", 0, 30, 4096, 30⟩]) =
      .error ⟨.ValidationError, "Pattern validation failed:\n" ++
        msgNonPatchable "Portal (.actual.battle.net)" 10 ".text"⟩ := rfl

/-- Witness for the amended C4 at the counterexample's concrete input. -/
theorem dry_run_hard_stops_on_validation_witness :
    validate_patch_offsets (.PE [⟨".text", 0, 30, 4096, 30⟩])
        (collect_offsets (List.replicate 10 0 ++ portalText ++ List.replicate 2 0) true) =
      .error (msgNonPatchable "Portal (.actual.battle.net)" 10 ".text") ∧
      execute_patch_core (List.replicate 10 0 ++ portalText ++ List.replicate 2 0)
          KeyConfig.trinity_core none none true ⟨true, none⟩
          (.PE [⟨".text", 0, 30, 4096, 30⟩]) =
        .error ⟨.ValidationError, "Pattern validation failed:\n" ++
          msgNonPatchable "Portal (.actual.battle.net)" 10 ".text"⟩ :=
  ⟨rfl, dry_run_hard_stops_on_validation
    (List.replicate 10 0 ++ portalText ++ List.replicate 2 0) KeyConfig.trinity_core
    none none ⟨true, none⟩ (.PE [⟨".text", 0, 30, 4096, 30⟩])
    (msgNonPatchable "Portal (.actual.battle.net)" 10 ".text") rfl⟩

/-- C6: mandatory versus optional targets in apply mode (dry-run off,
section validation passing).  (a) No portal match: the whole operation
fails with the portal `PatchingError`.  (b) Portal patched but none of the
three RSA candidate patterns matches: the whole operation fails with the
RSA `PatchingError`.  (c) Portal and RSA (ConnectTo) patched, and the
Ed25519, v1/v2/v3 version-URL and CDNs patterns are all absent: the
operation completes successfully, those targets contribute zero, and the
applied-patch count is exactly 2. -/
theorem mandatory_vs_optional_targets (data : List Nat) (keys : KeyConfig)
    (version_url cdns_url : Option String) (client : ClientInfo) (obj : ParsedObject)
    (hval : validate_patch_offsets obj (collect_offsets data client.usesEd25519) =
      .ok ()) :
    (find_pattern data portal_pattern = none →
      execute_patch_core data keys version_url cdns_url false client obj =
        .error ⟨.PatchingError, "Failed to patch portal pattern - unsupported WoW version"⟩)
    ∧ (∀ d1, patch data portal_pattern (patternEmpty portal_pattern) = (.ok (), d1) →
        find_pattern d1 connect_to_modulus_pattern = none →
        find_pattern d1 signature_modulus_pattern = none →
        find_pattern d1 crypto_rsa_modulus_pattern = none →
        execute_patch_core data keys version_url cdns_url false client obj =
          .error ⟨.PatchingError,
            "Failed to patch RSA modulus - no known pattern found (unsupported WoW version)"⟩)
    ∧ (∀ d1 d2, patch data portal_pattern (patternEmpty portal_pattern) = (.ok (), d1) →
        patch d1 connect_to_modulus_pattern keys.rsa_modulus = (.ok (), d2) →
        find_pattern d2 crypto_ed_public_key_pattern = none →
        find_pattern d2 version_url_pattern = none →
        find_pattern d2 version_url_v2_pattern = none →
        find_pattern d2 version_url_v3_pattern = none →
        find_pattern d2 cdns_url_pattern = none →
        execute_patch_core data keys version_url cdns_url false client obj =
          .ok (.wrote d2 2)) := by
  refine ⟨?_, ?_, ?_⟩
  · intro h
    simp [execute_patch_core, hval, apply_portal_err data h]
  · intro d1 hp h1 h2 h3
    simp [execute_patch_core, hval, apply_portal_ok data d1 hp,
      apply_rsa_err d1 keys.rsa_modulus h1 h2 h3]
  · intro d1 d2 hp hrsa hed hv1 hv2 hv3 hcd
    have hed' : apply_ed (d2, 2) client.usesEd25519 keys.ed25519_public_key = (d2, 2) :=
      apply_ed_none (d2, 2) client.usesEd25519 keys.ed25519_public_key hed
    have hver : apply_version_urls (d2, 2) version_url client.buildNum = ((d2, 2), false) :=
      apply_version_urls_none (d2, 2) version_url client.buildNum hv1 hv2 hv3
    have hcdn : apply_cdns (d2, 2) cdns_url false = (d2, 2) :=
      apply_cdns_none (d2, 2) cdns_url hcd
    simp [execute_patch_core, hval, apply_portal_ok data d1 hp,
      apply_rsa_ok_first d1 keys.rsa_modulus d2 hrsa, hed', hver, hcdn]

set_option maxRecDepth 8192 in
/-- Witness for C6 part (c) at a concrete input: a 27-byte buffer holding
the portal text followed by the ConnectTo RSA pattern, one fully patchable
`.data` PE section; the run applies exactly the two mandatory patches. -/
theorem mandatory_vs_optional_targets_witness :
    validate_patch_offsets (.PE [⟨".data", 0, 27, 0, 27⟩])
        (collect_offsets
          (portalText ++ [0x91, 0xD5, 0x9B, 0xB7, 0xD4, 0xE1, 0x83, 0xA5] ++ [0]) true) =
      .ok () ∧
    patch (portalText ++ [0x91, 0xD5, 0x9B, 0xB7, 0xD4, 0xE1, 0x83, 0xA5] ++ [0])
        portal_pattern (patternEmpty portal_pattern) =
      (.ok (), List.replicate 18 0 ++ [0x91, 0xD5, 0x9B, 0xB7, 0xD4, 0xE1, 0x83, 0xA5] ++ [0]) ∧
    patch (List.replicate 18 0 ++ [0x91, 0xD5, 0x9B, 0xB7, 0xD4, 0xE1, 0x83, 0xA5] ++ [0])
        connect_to_modulus_pattern KeyConfig.trinity_core.rsa_modulus =
      (.ok (), List.replicate 18 0 ++ [0x5F, 0xD6, 0x80, 0x0B, 0xA7, 0xFF, 0x01, 0x40] ++ [0]) ∧
    execute_patch_core
        (portalText ++ [0x91, 0xD5, 0x9B, 0xB7, 0xD4, 0xE1, 0x83, 0xA5] ++ [0])
        KeyConfig.trinity_core none none false ⟨true, none⟩
        (.PE [⟨".data", 0, 27, 0, 27⟩]) =
      .ok (.wrote
        (List.replicate 18 0 ++ [0x5F, 0xD6, 0x80, 0x0B, 0xA7, 0xFF, 0x01, 0x40] ++ [0]) 2) :=
  ⟨rfl, rfl, rfl,
    (mandatory_vs_optional_targets
      (portalText ++ [0x91, 0xD5, 0x9B, 0xB7, 0xD4, 0xE1, 0x83, 0xA5] ++ [0])
      KeyConfig.trinity_core none none ⟨true, none⟩
      (.PE [⟨".data", 0, 27, 0, 27⟩]) (by rfl)).2.2
      (List.replicate 18 0 ++ [0x91, 0xD5, 0x9B, 0xB7, 0xD4, 0xE1, 0x83, 0xA5] ++ [0])
      (List.replicate 18 0 ++ [0x5F, 0xD6, 0x80, 0x0B, 0xA7, 0xFF, 0x01, 0x40] ++ [0])
      (by rfl) (by rfl) (by rfl) (by rfl) (by rfl) (by rfl) (by rfl)⟩

theorem scenario_length : scenarioBuf.length = 2048 := by
  unfold scenarioBuf
  rw [List.length_append, List.length_append, List.length_replicate,
    List.length_replicate, (by decide : portalText.length = 18)]

theorem scenario_getD_text (j : Nat) (hj : j < 18) :
    scenarioBuf.getD (100 + j) 0 = portalText.getD j 0 := by
  unfold scenarioBuf
  rw [List.getD_append_right _ _ _ _ (by simp : (List.replicate 100 (0 : Nat)).length ≤ 100 + j)]
  have hix : 100 + j - (List.replicate 100 (0 : Nat)).length = j := by simp
  rw [hix]
  exact List.getD_append _ _ _ _ (by simpa [portalText] using hj)

theorem scenario_getD_zero (m : Nat) (hm : m < 100) : scenarioBuf.getD m 0 = 0 := by
  unfold scenarioBuf
  rw [List.getD_append _ _ _ _ (by simpa using hm)]
  rw [List.getD_eq_getElem _ _ (by simpa using hm)]
  simp only [List.getElem_replicate]

theorem scenario_find : find_pattern scenarioBuf portal_pattern = some 100 := by
  have hplen : portal_pattern.length = 18 := by decide
  have hall : ∀ j < 18, ((portalText.getD j 0 : Nat) : Int) = portal_pattern.getD j 0 := by
    decide
  have hmatch : WildcardMatchAt scenarioBuf portal_pattern 100 := by
    intro j hj
    rw [hplen] at hj
    right
    rw [scenario_getD_text j hj]
    exact hall j hj
  have hnom : ∀ m < 100, ¬ WildcardMatchAt scenarioBuf portal_pattern m := by
    intro m hm hw
    have h0 := hw 0 (by rw [hplen]; omega)
    have hp0 : portal_pattern.getD 0 0 = 46 := by decide
    rcases h0 with h0 | h0
    · rw [hp0] at h0
      exact absurd h0 (by decide)
    · have hz : scenarioBuf.getD (m + 0) 0 = 0 := by
        simpa using scenario_getD_zero m hm
      rw [hz, hp0] at h0
      exact absurd h0 (by decide)
  have hk : 100 + portal_pattern.length ≤ scenarioBuf.length := by
    rw [hplen, scenario_length]
    omega
  obtain ⟨j, hfind, hjle, hjmatch, -⟩ :=
    find_pattern_first scenarioBuf portal_pattern 100 (by decide) hk hmatch
  have hj100 : j = 100 := by
    rcases Nat.lt_or_ge j 100 with hlt | hge
    · exact absurd hjmatch (hnom j hlt)
    · omega
  rw [hj100] at hfind
  exact hfind

theorem scenario_patch :
    patch scenarioBuf portal_pattern (patternEmpty portal_pattern) =
      (.ok (), List.replicate 2048 0) := by
  have hplen : portal_pattern.length = 18 := by decide
  have hne : scenarioBuf ≠ [] := by
    intro h
    have hl := scenario_length
    rw [h] at hl
    simp at hl
  have hrep : patternEmpty portal_pattern = List.replicate 18 0 := by
    rw [patternEmpty, hplen]
  unfold patch
  rw [if_neg (show ¬ scenarioBuf.isEmpty = true by
    simpa using List.isEmpty_eq_false.mpr hne)]
  rw [if_neg (show ¬ scenarioBuf.length < portal_pattern.length by
    rw [hplen, scenario_length]; omega)]
  rw [scenario_find]
  dsimp only
  rw [hrep]
  have hmin : min (List.replicate 18 (0 : Nat)).length portal_pattern.length = 18 := by
    rw [hplen]; simp
  rw [hmin]
  have htake18 : (List.replicate 18 (0 : Nat)).take 18 = List.replicate 18 0 := by
    simp
  rw [htake18]
  unfold copySlice
  have htake : scenarioBuf.take 100 = List.replicate 100 0 := by
    unfold scenarioBuf
    exact List.take_left' (by simp)
  have hdrop : scenarioBuf.drop (100 + (List.replicate 18 (0 : Nat)).length) =
      List.replicate 1930 0 := by
    unfold scenarioBuf
    rw [← List.append_assoc]
    exact List.drop_left' (by simp [portalText])
  rw [htake, hdrop]
  rw [List.append_assoc, List.append_replicate_replicate, List.append_replicate_replicate]

/-- Counterexample to C9 as stated: in the spec's scenario (2048 zero bytes
with ".actual.battle.net" at offset 100) the portal search does find offset
100, but the apply step overwrites exactly `min (len replacement)
(len pattern) = 18` bytes starting there, not 19: the portal pattern is the
18-byte ASCII string and its zero replacement has the same length, so the
written span is offsets 100..117. -/
theorem hostname_scenario_counterexample :
    find_pattern scenarioBuf portal_pattern = some 100 ∧
      patch scenarioBuf portal_pattern (patternEmpty portal_pattern) =
        (.ok (), List.replicate 2048 0) ∧
      min (patternEmpty portal_pattern).length portal_pattern.length = 18 ∧
      (18 : Nat) ≠ 19 :=
  ⟨scenario_find, scenario_patch, by decide, by decide⟩

/-- C9 (amended): in the scenario buffer the portal search finds offset 100
and applying the hostname-removal target overwrites exactly 18 bytes (the
length of ".actual.battle.net") with zeroes starting at offset 100, leaving
the all-zero 2048-byte buffer. -/
theorem hostname_scenario_amended :
    find_pattern scenarioBuf portal_pattern = some 100 ∧
      patch scenarioBuf portal_pattern (patternEmpty portal_pattern) =
        (.ok (), List.replicate 2048 0) ∧
      min (patternEmpty portal_pattern).length portal_pattern.length = 18 :=
  ⟨scenario_find, scenario_patch, by decide⟩

end WowPatcher
